import Mathlib

/-!
Verification development for the sonarqube-dash-cli repository.

The definitions below are a shallow embedding of the JavaScript source:

* `src/lib/api.js` — the snippet resolver `getIssueSource` (primary
  `/api/sources/raw` endpoint with `/api/sources/show` fallback, and the
  fixed-radius context window around a focus line);
* `src/lib/config.js` — `loadConfig` / `writeConfig` (the `{...current, ...data}`
  object merge);
* the CLI entry (`buildRuntimeConfig`, the `config` subcommands, `print-config`,
  `runMetrics --print-config` redaction);
* the interactive issue browser (`browseIssuesTui`): the `render` function with
  its `lastRendered` skip and `renderSeq` staleness check, the `select` and
  navigation handlers, and the branch-switch handler.

JavaScript truthiness, object spread, and `String.prototype.split(/\r?\n/)`
are modelled explicitly where the source relies on them.
-/

namespace SonarDash

/-- JS truthiness for string-valued fields: `undefined` and `""` are falsy.
`jsTruthyStr v` is `some s` exactly when the JS value is a truthy string. -/
def jsTruthyStr : Option String → Option String
  | some v => if v = "" then none else some v
  | none => none

/-- JS truthiness for number-valued fields: `undefined` and `0` are falsy
(negative numbers are truthy). -/
def jsTruthyInt : Option Int → Option Int
  | some v => if v = 0 then none else some v
  | none => none

/-- The JS `a || b` idiom on optional strings: `a` when truthy, else `b`. -/
def jsOr (a b : Option String) : Option String :=
  match a with
  | some v => some v
  | none => b

/-- Splitting accumulator for `content.split(/\r?\n/)`: a separator is `\n`
optionally preceded by `\r`; a lone `\r` is ordinary content. -/
def splitLinesAux : List Char → List Char → List String
  | [], acc => [String.mk acc.reverse]
  | '\r' :: '\n' :: rest, acc => String.mk acc.reverse :: splitLinesAux rest []
  | '\n' :: rest, acc => String.mk acc.reverse :: splitLinesAux rest []
  | c :: rest, acc => splitLinesAux rest (c :: acc)

/-- `content.split(/\r?\n/)` from `getIssueSource`. On the empty string this
yields `[""]`, exactly as in JS. -/
def splitLines (s : String) : List String :=
  splitLinesAux s.toList []

/-- The `textRange` field of an issue (`{startLine, endLine}`). -/
structure TextRange where
  startLine : Int
  endLine : Int
deriving DecidableEq

/-- An issue as consumed by the browser and the snippet resolver. Optional
fields model JS `undefined`. -/
structure Issue where
  key : String
  severity : String
  type : String
  status : Option String
  message : Option String
  component : Option String
  line : Option Int
  textRange : Option TextRange
deriving DecidableEq

/-- The value of `issue.line || issue.textRange?.startLine` (JS `||`:
a `line` of `0` is falsy and falls through to the text range). -/
def focusCandidate (i : Issue) : Option Int :=
  match jsTruthyInt i.line with
  | some v => some v
  | none => i.textRange.map TextRange.startLine

/-- The focus line actually used by `getIssueSource`: the candidate above,
subjected to the `if (!focusLine)` check (so a value of `0` counts as absent). -/
def focusLineOf (i : Issue) : Option Int :=
  jsTruthyInt (focusCandidate i)

/-- Outcome of one endpoint call: parsed payload, or any thrown error. -/
inductive FetchResult (α : Type) where
  | ok (val : α)
  | err
deriving DecidableEq

/-- The two source endpoints as seen by one `getIssueSource` call:
`raw` is `/api/sources/raw` (raw file text); `showSources` is
`/api/sources/show`, reduced to its `sources` array of `code` fields
(`ok none` models a response without a proper array). -/
structure SourceEnv where
  raw : FetchResult String
  showSources : FetchResult (Option (List String))
deriving DecidableEq

/-- JS `String.prototype.padStart(4)`. -/
def padStart4 (s : String) : String :=
  if 4 ≤ s.length then s else String.mk (List.replicate (4 - s.length) ' ') ++ s

/-- The marker put before each snippet line: `">"` on the focus line,
`" "` on context lines. -/
def focusMarker (idx ln : Int) : String :=
  if ln = idx then ">" else " "

/-- JS indexing `lines[i]` on a string array, with `""` for the (unreached)
out-of-bounds case. -/
def strIndexD (l : List String) (i : Int) : String :=
  if i < 0 then "" else l.getD i.toNat ""

/-- One rendered snippet line:
`` `${prefix} ${ln.toString().padStart(4)} | ${lines[ln - 1]}` ``. -/
def renderSnippetLine (lines : List String) (idx ln : Int) : String :=
  focusMarker idx ln ++ " " ++ padStart4 (toString ln) ++ " | " ++ strIndexD lines (ln - 1)

/-- The line numbers `start, start+1, …, stop` iterated by the
`for (let ln = start; ln <= end; ln++)` loop (empty when `stop < start`). -/
def windowLnos (start stop : Int) : List Int :=
  (List.range (stop + 1 - start).toNat).map (fun j => start + Int.ofNat j)

/-- Return value of `getIssueSource` when content was retrieved:
either full content with a `null` snippet (no focus line), or a windowed
snippet `{content, snippet, start, end, focus}` (`stop` stands for the
source field `end`). -/
inductive SourceResult where
  | fullOnly (content : String)
  | windowed (content snippet : String) (start stop focus : Int)
deriving DecidableEq

/-- `getIssueSource` from `src/lib/api.js`: bail out when the issue has no
truthy `component`; try the raw endpoint, falling back to the structured
endpoint on any error; treat empty content as `null`; then slice a
`contextLines` radius window around the focus line. `none` models the
JS `null` return (including the catch-all error path). -/
def getIssueSource (env : SourceEnv) (issue : Issue) (contextLines : Int) : Option SourceResult :=
  if (jsTruthyStr issue.component).isNone then none
  else
    let contentRetrieved : Option String :=
      match env.raw with
      | .ok c => some c
      | .err =>
        match env.showSources with
        | .ok (some srcs) => some (String.intercalate "\n" srcs)
        | .ok none => none
        | .err => none
    match contentRetrieved with
    | none => none
    | some content =>
      if content = "" then none
      else
        let lines := splitLines content
        match focusLineOf issue with
        | none => some (.fullOnly content)
        | some focusLine =>
          let idx := max 1 focusLine
          let start := max 1 (idx - contextLines)
          let stop := min (lines.length : Int) (idx + contextLines)
          some (.windowed content
            (String.intercalate "\n" ((windowLnos start stop).map (renderSnippetLine lines idx)))
            start stop idx)

/-- The `content` field of a resolver result. -/
def contentOf : Option SourceResult → Option String
  | some (.fullOnly c) => some c
  | some (.windowed c _ _ _ _) => some c
  | none => none

/-- The `focus` field of a resolver result (present only on windowed results). -/
def focusOf : Option SourceResult → Option Int
  | some (.windowed _ _ _ _ f) => some f
  | _ => none

/-- The `snippet` string of a windowed resolver result. -/
def snippetOf : Option SourceResult → Option String
  | some (.windowed _ snip _ _ _) => some snip
  | _ => none

/-- The four recognized configuration keys, as an optional-field record.
Used both for the parsed config file and for the `SONARQUBE_DASH_*`
environment variables (in `envConfig` every key exists, possibly with an
undefined value — modelled by `none`). -/
structure ConfigMap where
  token : Option String
  project : Option String
  host : Option String
  branch : Option String
deriving DecidableEq

/-- The CLI flags relevant to `buildRuntimeConfig` (commander option values;
absent flags are `none`). -/
structure CliOpts where
  token : Option String
  project : Option String
  branch : Option String
  host : Option String
  json : Bool
deriving DecidableEq

/-- The resolved runtime configuration returned by `buildRuntimeConfig`. -/
structure RuntimeConfig where
  token : Option String
  project : Option String
  host : Option String
  branch : Option String
  json : Bool
deriving DecidableEq

/-- `if (opts.key) merged.key = opts.key`: a truthy CLI flag overrides the
merged value. -/
def applyFlag (base flag : Option String) : Option String :=
  match jsTruthyStr flag with
  | some v => some v
  | none => base

/-- `buildRuntimeConfig` from the CLI entry: spread the file config, then the
environment entries filtered to those that are neither `undefined` nor `""`
(`envFiltered`), then apply truthy CLI flags, copy the `json` flag, and
default the host to the fixed placeholder when still falsy. -/
def buildRuntimeConfig (configFromFile envConfig : ConfigMap) (opts : CliOpts) : RuntimeConfig :=
  let token := applyFlag (jsOr (jsTruthyStr envConfig.token) configFromFile.token) opts.token
  let project := applyFlag (jsOr (jsTruthyStr envConfig.project) configFromFile.project) opts.project
  let branch := applyFlag (jsOr (jsTruthyStr envConfig.branch) configFromFile.branch) opts.branch
  let host0 := applyFlag (jsOr (jsTruthyStr envConfig.host) configFromFile.host) opts.host
  let host :=
    match jsTruthyStr host0 with
    | some h => some h
    | none => some "https://sonarqube.example.com"
  { token := token, project := project, host := host, branch := branch, json := opts.json }

/-- `if (out.token) out.token = "***"` applied to a config object before it
is printed. -/
def redactTokenMap (c : ConfigMap) : ConfigMap :=
  match jsTruthyStr c.token with
  | some _ => { c with token := some "***" }
  | none => c

/-- Same redaction on a resolved runtime configuration. -/
def redactRuntime (r : RuntimeConfig) : RuntimeConfig :=
  match jsTruthyStr r.token with
  | some _ => { r with token := some "***" }
  | none => r

/-- The object printeable by `config show`: the stored file config with the
token redacted when truthy. -/
def configShowOutput (configFromFile : ConfigMap) : ConfigMap :=
  redactTokenMap configFromFile

/-- The line printed by `config get <key>`: `"***"` for a stored token,
the stored value for the other recognized keys, `none` when the key is
absent (the command exits non-zero). -/
def configGetOutput (configFromFile : ConfigMap) (key : String) : Option String :=
  if key = "token" then (if configFromFile.token.isSome then some "***" else none)
  else if key = "project" then configFromFile.project
  else if key = "host" then configFromFile.host
  else if key = "branch" then configFromFile.branch
  else none

/-- The object printed by the `print-config` command:
`const merged = { ...configFromFile, ...envConfig }` — the `envConfig`
object literal owns all four keys (possibly with undefined values), so for
each modelled key the spread takes the environment entry; then the token is
redacted when truthy. `JSON.stringify` later drops `undefined` values, which
is why `none` fields are simply absent from the printed JSON. -/
def printConfigOutput (_configFromFile envConfig : ConfigMap) : ConfigMap :=
  redactTokenMap
    { token := envConfig.token, project := envConfig.project,
      host := envConfig.host, branch := envConfig.branch }

/-- The object printed by `metrics --print-config`: the fully resolved
runtime configuration with the token redacted when truthy. -/
def metricsPrintConfigOutput (configFromFile envConfig : ConfigMap) (opts : CliOpts) : RuntimeConfig :=
  redactRuntime (buildRuntimeConfig configFromFile envConfig opts)

/-- Lookup in a JS object modelled as an association list (first match wins;
a parsed JSON object has distinct keys). -/
def objGet (o : List (String × String)) (k : String) : Option String :=
  (o.find? (fun p => p.1 = k)).map Prod.snd

/-- JS object spread `{ ...c, ...u }`: the keys of `c` in order with values
overridden by `u` where present, followed by the keys of `u` not in `c`. -/
def objMerge (c u : List (String × String)) : List (String × String) :=
  c.map (fun p => (p.1, (objGet u p.1).getD p.2)) ++
    u.filter (fun p => (objGet c p.1).isNone)

/-- The data written by `writeConfig` in `src/lib/config.js`:
`const merged = { ...current, ...data }`, where `current` is the parsed
existing file (or `{}` on absence or parse error) and `data` the updates
collected by `config set`. -/
def writeConfig (current data : List (String × String)) : List (String × String) :=
  objMerge current data

/-- Content of the TUI code pane: empty at creation, `"Loading code snippet..."`
after a render starts, or the outcome of a completed snippet fetch tagged with
the sequence number that applied it (`none` renders as `"(no snippet)"`). -/
inductive CodePane where
  | initial
  | loading
  | applied (seq : Nat) (result : Option SourceResult)
deriving DecidableEq

/-- The mutable state of one `browseIssuesTui` session: the `issues` variable
(wholesale-replaced on branch switch), the current branch closure variable,
the list widget selection, and the `renderSeq` / `lastRendered` counters of
the `render` function. -/
structure BrowserState where
  issues : List Issue
  branch : Option String
  selected : Int
  renderSeq : Nat
  lastRendered : Int
  codePane : CodePane
deriving DecidableEq

/-- JS indexing `issues[idx]`. -/
def jsGetIssue (l : List Issue) (i : Int) : Option Issue :=
  if i < 0 then none else l.get? i.toNat

/-- The synchronous part of `render(idx)`, up to the `await getIssueSource`
suspension point: skip when `idx === lastRendered`; otherwise record
`lastRendered`, bump `renderSeq` to obtain `mySeq`, and — when `issues[idx]`
exists — show the loading pane and issue the snippet fetch. The second
component is the sequence number handed to the fetch (`none` when no fetch
was started). -/
def startRender (s : BrowserState) (idx : Int) : BrowserState × Option Nat :=
  if idx = s.lastRendered then (s, none)
  else
    let s1 := { s with lastRendered := idx, renderSeq := s.renderSeq + 1 }
    match jsGetIssue s.issues idx with
    | none => (s1, none)
    | some _ => ({ s1 with codePane := .loading }, some s1.renderSeq)

/-- The continuation of `render` after the snippet fetch tagged `mySeq`
resolves: `if (mySeq !== renderSeq) return // stale`, otherwise apply the
result to the code pane. -/
def completeRender (s : BrowserState) (mySeq : Nat) (result : Option SourceResult) : BrowserState :=
  if mySeq ≠ s.renderSeq then s
  else { s with codePane := .applied mySeq result }

/-- The `list.on("select", ...)` handler (fired by enter / the confirm
action): it simply calls `render(idx)`. -/
def onSelect (s : BrowserState) (idx : Int) : BrowserState × Option Nat :=
  startRender s idx

/-- The `list.on("keypress", ...)` handler for up / down / k / j: it calls
`render(list.selected)` with the already-updated selection. -/
def onNavKeypress (s : BrowserState) (newSelected : Int) : BrowserState × Option Nat :=
  startRender { s with selected := newSelected } newSelected

/-- The query sent by the branch-switch handler: a `getIssues` call for the
same project, scoped to the chosen branch, with the current list length as
limit. -/
structure IssuesQuery where
  project : String
  branch : Option String
  limit : Nat
deriving DecidableEq

/-- Parameters of the `getIssues` refetch issued by `box.on("select")` after
choosing a branch. -/
def branchSwitchQuery (projectKey chosen : String) (currentIssues : List Issue) : IssuesQuery :=
  { project := projectKey, branch := some chosen, limit := currentIssues.length }

/-- The successful branch-switch continuation: `issues = refreshed.issues`
(wholesale replacement), `list.select(0)`, then `await render(0)`. The
`branch` closure variable is not reassigned by the handler (only the list
label changes), so the state keeps the original branch. -/
def branchSwitchApply (s : BrowserState) (refreshed : List Issue) : BrowserState × Option Nat :=
  startRender { s with issues := refreshed, selected := 0 } 0

/-- Result of entering `browseIssuesTui`: the empty-list early return that
only prints a message, or the constructed session together with the fetch
issued by the initial `render(0)`. -/
inductive TuiStart where
  | empty (message : String)
  | session (state : BrowserState) (issuedFetch : Option Nat)
deriving DecidableEq

/-- The entry of `browseIssuesTui`: `if (!issues.length)` print `"No issues."`
and return before any widget, render, or network call; otherwise build the
session (selection 0, `renderSeq = 0`, `lastRendered = -1`) and run the
initial `render(0)`. -/
def browseIssuesTui (issues : List Issue) (branch : Option String) : TuiStart :=
  if issues.length = 0 then .empty "No issues."
  else
    let s0 : BrowserState :=
      { issues := issues, branch := branch, selected := 0,
        renderSeq := 0, lastRendered := -1, codePane := .initial }
    let p := startRender s0 0
    .session p.1 p.2

/-! Helper lemmas. -/

/-- A fetch is issued by `startRender` only with the freshly bumped sequence
number, which is then the latest issued one. -/
theorem startRender_issued {s s' : BrowserState} {idx : Int} {k : Nat}
    (h : startRender s idx = (s', some k)) :
    k = s.renderSeq + 1 ∧ s'.renderSeq = s.renderSeq + 1 := by
  unfold startRender at h
  split at h
  · simp at h
  · split at h
    · simp at h
    · simp only [Prod.mk.injEq, Option.some.injEq] at h
      obtain ⟨hs, hk⟩ := h
      subst hs
      exact ⟨hk.symm, rfl⟩

theorem windowLnos_length (s e : Int) :
    (windowLnos s e).length = (e + 1 - s).toNat := by
  rw [windowLnos, List.length_map, List.length_range]

theorem mem_windowLnos (s e ln : Int) :
    ln ∈ windowLnos s e ↔ s ≤ ln ∧ ln ≤ e := by
  simp only [windowLnos, List.mem_map, List.mem_range, Int.ofNat_eq_natCast]
  constructor
  · rintro ⟨j, hj, rfl⟩
    have hj2 : (j : Int) < e + 1 - s := Int.lt_toNat.mp hj
    omega
  · rintro ⟨hs, he⟩
    refine ⟨(ln - s).toNat, Int.lt_toNat.mpr (by omega), ?_⟩
    omega

theorem focusMarker_eq (idx ln : Int) :
    (focusMarker idx ln = ">" ↔ ln = idx) ∧ (focusMarker idx ln = " " ↔ ln ≠ idx) := by
  unfold focusMarker
  by_cases h : ln = idx <;> simp [h]

theorem objGet_nil (k : String) : objGet [] k = none := rfl

theorem objGet_cons (a : String × String) (t : List (String × String)) (k : String) :
    objGet (a :: t) k = if a.1 = k then some a.2 else objGet t k := by
  by_cases h : a.1 = k <;> simp [objGet, List.find?, h]

theorem objGet_append (l1 l2 : List (String × String)) (k : String) :
    objGet (l1 ++ l2) k = ((objGet l1 k).rec (objGet l2 k) (fun v => some v)) := by
  induction l1 with
  | nil => simp [objGet]
  | cons a t ih =>
    rw [List.cons_append, objGet_cons, objGet_cons]
    by_cases h : a.1 = k <;> simp [h, ih]

theorem objGet_mapOverride (c u : List (String × String)) (k : String) :
    objGet (c.map fun p => (p.1, (objGet u p.1).getD p.2)) k
      = (objGet c k).map (fun v => (objGet u k).getD v) := by
  induction c with
  | nil => simp [objGet]
  | cons a t ih =>
    rw [List.map_cons, objGet_cons, objGet_cons]
    by_cases h : a.1 = k
    · rw [if_pos h, if_pos h, h]
      rfl
    · rw [if_neg h, if_neg h, ih]

theorem objGet_filterAbsent (c u : List (String × String)) (k : String) :
    objGet (u.filter fun p => (objGet c p.1).isNone) k
      = if (objGet c k).isNone then objGet u k else none := by
  induction u with
  | nil => simp [objGet]
  | cons b t ih =>
    rw [List.filter_cons]
    by_cases hb : (objGet c b.1).isNone = true
    · rw [if_pos hb, objGet_cons, objGet_cons]
      by_cases hk : b.1 = k
      · rw [if_pos hk, if_pos hk, if_pos (hk ▸ hb)]
      · rw [if_neg hk, if_neg hk, ih]
    · rw [if_neg hb, ih]
      by_cases hk : b.1 = k
      · simp [hk ▸ hb]
      · rw [objGet_cons, if_neg hk]

/-! Sample fixtures used by the concrete instances below. -/

/-- A representative issue as returned by the issues search. -/
def sampleIssue (k : String) : Issue :=
  { key := k, severity := "MAJOR", type := "BUG", status := some "OPEN",
    message := some "sample message", component := some "proj:src/file.js",
    line := some 3, textRange := none }

/-! Claim theorems. -/

/-- C7: configuration precedence in `buildRuntimeConfig` is file config below
environment variables below CLI flags. With file token `"a"`, env token `"b"`
and flag token `"c"` the resolved token is `"c"`; dropping the flag gives
`"b"`; dropping flag and env gives `"a"`; and a field not supplied by a
higher-precedence layer falls through to the lower layer (shown for token,
project and branch). -/
theorem config_precedence (file env : ConfigMap) (opts : CliOpts) :
    (buildRuntimeConfig { file with token := some "a" } { env with token := some "b" }
        { opts with token := some "c" }).token = some "c"
  ∧ (buildRuntimeConfig { file with token := some "a" } { env with token := some "b" }
        { opts with token := none }).token = some "b"
  ∧ (buildRuntimeConfig { file with token := some "a" } { env with token := none }
        { opts with token := none }).token = some "a"
  ∧ (buildRuntimeConfig file { env with token := none } { opts with token := none }).token
      = file.token
  ∧ (buildRuntimeConfig file env { opts with project := none }).project
      = jsOr (jsTruthyStr env.project) file.project
  ∧ (buildRuntimeConfig file { env with branch := none } { opts with branch := none }).branch
      = file.branch := by
  refine ⟨?_, ?_, ?_, ?_, ?_, ?_⟩ <;>
    simp [buildRuntimeConfig, applyFlag, jsOr, jsTruthyStr]

/-- C10: `config set` writes exactly the JS merge `{ ...current, ...data }`:
every key of the updates object takes its new value, and every stored key not
mentioned in the updates keeps its previous value. -/
theorem config_set_preserves_other_keys (current updates : List (String × String)) :
    (∀ k v, objGet updates k = some v → objGet (writeConfig current updates) k = some v)
  ∧ (∀ k, objGet updates k = none → objGet (writeConfig current updates) k = objGet current k) := by
  constructor
  · intro k v hu
    unfold writeConfig objMerge
    rw [objGet_append, objGet_mapOverride, objGet_filterAbsent]
    cases hc : objGet current k <;> simp [hc, hu]
  · intro k hu
    unfold writeConfig objMerge
    rw [objGet_append, objGet_mapOverride, objGet_filterAbsent]
    cases hc : objGet current k <;> simp [hc, hu]

/-- Instance of C10 at a concrete file and update set: setting `token`
keeps the stored `project` and overrides the stored `token`. -/
theorem config_set_preserves_other_keys_instance :
    objGet (writeConfig [("token", "a"), ("project", "p")] [("token", "z")]) "token" = some "z"
  ∧ objGet (writeConfig [("token", "a"), ("project", "p")] [("token", "z")]) "project" = some "p" :=
  ⟨(config_set_preserves_other_keys [("token", "a"), ("project", "p")] [("token", "z")]).1
      "token" "z" (by decide),
   (config_set_preserves_other_keys [("token", "a"), ("project", "p")] [("token", "z")]).2
      "project" (by decide)⟩

/-- C8: every modelled rendering of configuration that holds a non-empty token
(`config show`, `config get token`, `print-config`, `metrics --print-config`)
prints the literal `***` in place of the token value. -/
theorem token_redaction (file env : ConfigMap) (opts : CliOpts) :
    ((jsTruthyStr file.token).isSome → (configShowOutput file).token = some "***")
  ∧ (file.token.isSome → configGetOutput file "token" = some "***")
  ∧ ((jsTruthyStr env.token).isSome → (printConfigOutput file env).token = some "***")
  ∧ ((jsTruthyStr (buildRuntimeConfig file env opts).token).isSome →
      (metricsPrintConfigOutput file env opts).token = some "***") := by
  refine ⟨?_, ?_, ?_, ?_⟩
  · intro h
    unfold configShowOutput redactTokenMap
    cases hv : jsTruthyStr file.token with
    | none => rw [hv] at h; simp at h
    | some v => simp
  · intro h
    unfold configGetOutput
    simp [h]
  · intro h
    unfold printConfigOutput redactTokenMap
    cases hv : jsTruthyStr env.token with
    | none => rw [hv] at h; simp at h
    | some v => simp [hv]
  · intro h
    unfold metricsPrintConfigOutput redactRuntime
    cases hv : jsTruthyStr (buildRuntimeConfig file env opts).token with
    | none => rw [hv] at h; simp at h
    | some v => simp [hv]

/-- Instance of C8 with a concrete token in every layer. -/
theorem token_redaction_instance :
    (configShowOutput
        { token := some "secret", project := some "p", host := none, branch := none }).token
      = some "***"
  ∧ configGetOutput
        { token := some "secret", project := some "p", host := none, branch := none } "token"
      = some "***"
  ∧ (printConfigOutput
        { token := some "secret", project := some "p", host := none, branch := none }
        { token := some "envtok", project := none, host := none, branch := none }).token
      = some "***"
  ∧ (metricsPrintConfigOutput
        { token := some "secret", project := some "p", host := none, branch := none }
        { token := some "envtok", project := none, host := none, branch := none }
        { token := some "flagtok", project := none, branch := none, host := none,
          json := false }).token
      = some "***" := by
  have h := token_redaction
    { token := some "secret", project := some "p", host := none, branch := none }
    { token := some "envtok", project := none, host := none, branch := none }
    { token := some "flagtok", project := none, branch := none, host := none, json := false }
  exact ⟨h.1 (by decide), h.2.1 (by decide), h.2.2.1 (by decide), h.2.2.2 (by decide)⟩

/-- C9: the interactive browser starts at selection index 0 on a non-empty
issue list (issuing the first snippet fetch with sequence number 1), and on an
empty list only prints the no-issues message, creating no session and issuing
no fetch. -/
theorem interactive_start_state (issues : List Issue) (branch : Option String) :
    (issues = [] → browseIssuesTui issues branch = .empty "No issues.")
  ∧ (issues ≠ [] →
      browseIssuesTui issues branch =
        .session { issues := issues, branch := branch, selected := 0,
                   renderSeq := 1, lastRendered := 0, codePane := .loading } (some 1)) := by
  constructor
  · rintro rfl
    rfl
  · intro h
    obtain ⟨a, l, rfl⟩ := List.exists_cons_of_ne_nil h
    simp [browseIssuesTui, startRender, jsGetIssue]

/-- Instance of C9 on an empty and on a one-element issue list. -/
theorem interactive_start_state_instance :
    browseIssuesTui [] none = .empty "No issues."
  ∧ browseIssuesTui [sampleIssue "A"] none =
      .session { issues := [sampleIssue "A"], branch := none, selected := 0,
                 renderSeq := 1, lastRendered := 0, codePane := .loading } (some 1) :=
  ⟨(interactive_start_state [] none).1 rfl,
   (interactive_start_state [sampleIssue "A"] none).2 (by decide)⟩

/-- C1: stale-result suppression. If the browser issues a snippet fetch with
sequence number `k` and then another with sequence number `k2`, then
`k2 = k + 1`; when the two resolve out of order, the result tagged `k + 1` is
applied to the code pane, the late result tagged `k` leaves the state
completely unchanged (silent discard), and in general a resolved fetch is
applied exactly when its sequence number still equals the latest issued one. -/
theorem stale_results_suppressed
    (s s1 s2 : BrowserState) (idx1 idx2 : Int) (k k2 : Nat)
    (r0 r1 : Option SourceResult)
    (h1 : startRender s idx1 = (s1, some k))
    (h2 : startRender s1 idx2 = (s2, some k2)) :
    k2 = k + 1
  ∧ (completeRender s2 k2 r1).codePane = .applied k2 r1
  ∧ completeRender (completeRender s2 k2 r1) k r0 = completeRender s2 k2 r1
  ∧ (completeRender (completeRender s2 k2 r1) k r0).codePane = .applied k2 r1
  ∧ (∀ q r, q ≠ s2.renderSeq → completeRender s2 q r = s2)
  ∧ (∀ q r, q = s2.renderSeq → (completeRender s2 q r).codePane = .applied q r) := by
  obtain ⟨hk1, hs1⟩ := startRender_issued h1
  obtain ⟨hk2, hs2⟩ := startRender_issued h2
  have hkk : k2 = k + 1 := by omega
  have hseq2 : s2.renderSeq = k2 := by omega
  have happly : completeRender s2 k2 r1 = { s2 with codePane := .applied k2 r1 } := by
    unfold completeRender
    rw [if_neg (by omega)]
  refine ⟨hkk, ?_, ?_, ?_, ?_, ?_⟩
  · rw [happly]
  · rw [happly]
    unfold completeRender
    rw [if_pos (by simp; omega)]
  · rw [happly]
    unfold completeRender
    rw [if_pos (by simp; omega)]
  · intro q r hq
    unfold completeRender
    rw [if_pos hq]
  · intro q r hq
    unfold completeRender
    rw [if_neg (by omega)]

/-- The session state after the initial render of a two-issue list. -/
def wState0 : BrowserState :=
  { issues := [sampleIssue "A", sampleIssue "B"], branch := none, selected := 0,
    renderSeq := 0, lastRendered := -1, codePane := .initial }

/-- State after the fetch for index 0 (sequence 1) was issued. -/
def wState1 : BrowserState :=
  { wState0 with renderSeq := 1, lastRendered := 0, codePane := .loading }

/-- State after the user navigated to index 1 before the first fetch resolved
(sequence 2 issued). -/
def wState2 : BrowserState :=
  { wState1 with renderSeq := 2, lastRendered := 1 }

/-- Instance of C1: fetches 1 and 2 resolving out of order leave only the
result tagged 2 on the code pane. -/
theorem stale_results_suppressed_instance :
    (completeRender wState2 2 (some (.fullOnly "new"))).codePane
      = .applied 2 (some (.fullOnly "new"))
  ∧ completeRender (completeRender wState2 2 (some (.fullOnly "new"))) 1 none
      = completeRender wState2 2 (some (.fullOnly "new"))
  ∧ completeRender wState2 1 none = wState2 := by
  have h := stale_results_suppressed wState0 wState1 wState2 0 1 1 2
    none (some (.fullOnly "new")) (by decide) (by decide)
  exact ⟨h.2.1, h.2.2.1, h.2.2.2.2.1 1 none (by decide)⟩

/-- A session whose index 0 has already been rendered (the state reached right
after the browser opens and the initial fetch for index 0 resolved). -/
def renderedSession : BrowserState :=
  { issues := [sampleIssue "A"], branch := none, selected := 0,
    renderSeq := 1, lastRendered := 0, codePane := .applied 1 (some (.fullOnly "old")) }

/-- C2 evaluation: the `select` (enter / confirm) handler on the currently
rendered index calls `render(0)`, which returns at the
`if (idx === lastRendered)` guard — no snippet fetch is issued and the state
is unchanged, although the comment above the handler says the confirm action
forces a render. -/
theorem confirm_on_current_index_issues_no_fetch :
    onSelect renderedSession 0 = (renderedSession, none)
  ∧ onNavKeypress renderedSession 0 = (renderedSession, none) := by decide

/-- C6 counterexample: switching branches from a session whose last rendered
index is 0 replaces the issue list and resets the selection, but the claimed
forced render does not happen — no fetch is issued and the code pane still
shows the previous branch's snippet. -/
theorem branch_switch_render_not_forced :
    (branchSwitchApply renderedSession [sampleIssue "B"]).2 = none
  ∧ (branchSwitchApply renderedSession [sampleIssue "B"]).1.codePane
      = .applied 1 (some (.fullOnly "old"))
  ∧ (branchSwitchApply renderedSession [sampleIssue "B"]).1.issues = [sampleIssue "B"] := by
  decide

/-- C6 as amended: the branch-switch handler refetches the issues scoped to
the chosen branch (with the current list length as limit), replaces the issue
list wholesale, resets the selection to 0 and calls `render(0)` — which issues
a fresh snippet fetch only when the last rendered index was not already 0;
otherwise the panes are left untouched. -/
theorem branch_switch_replaces_list_resets_selection
    (s : BrowserState) (projectKey chosen : String) (refreshed : List Issue) :
    branchSwitchQuery projectKey chosen s.issues =
      { project := projectKey, branch := some chosen, limit := s.issues.length }
  ∧ (branchSwitchApply s refreshed).1.issues = refreshed
  ∧ (branchSwitchApply s refreshed).1.selected = 0
  ∧ (s.lastRendered ≠ 0 → refreshed ≠ [] →
      (branchSwitchApply s refreshed).2 = some (s.renderSeq + 1)
      ∧ (branchSwitchApply s refreshed).1.codePane = .loading)
  ∧ (s.lastRendered = 0 →
      (branchSwitchApply s refreshed).2 = none
      ∧ (branchSwitchApply s refreshed).1.codePane = s.codePane) := by
  unfold branchSwitchApply startRender
  by_cases h0 : (0 : Int) = s.lastRendered
  · rw [if_pos h0]
    refine ⟨rfl, rfl, rfl, ?_, ?_⟩
    · intro hne
      exact absurd h0.symm hne
    · intro _
      exact ⟨rfl, rfl⟩
  · rw [if_neg h0]
    refine ⟨rfl, ?_, ?_, ?_, ?_⟩
    · cases hr : jsGetIssue refreshed 0 <;> rfl
    · cases hr : jsGetIssue refreshed 0 <;> rfl
    · intro _ hne
      obtain ⟨a, l, rfl⟩ := List.exists_cons_of_ne_nil hne
      simp [jsGetIssue]
    · intro h
      exact absurd h (fun hx => h0 hx.symm)

/-- A session where the user has navigated away from index 0
(`lastRendered = 2`). -/
def navigatedSession : BrowserState :=
  { issues := [sampleIssue "A", sampleIssue "B", sampleIssue "C"], branch := none,
    selected := 2, renderSeq := 3, lastRendered := 2,
    codePane := .applied 3 (some (.fullOnly "old")) }

/-- Instance of the amended C6: from a session with last rendered index 2,
choosing a branch replaces the list, resets the selection and issues the
snippet fetch for the new index 0. -/
theorem branch_switch_replaces_list_instance :
    branchSwitchQuery "proj" "develop" navigatedSession.issues =
      { project := "proj", branch := some "develop", limit := 3 }
  ∧ (branchSwitchApply navigatedSession [sampleIssue "D"]).1.issues = [sampleIssue "D"]
  ∧ (branchSwitchApply navigatedSession [sampleIssue "D"]).1.selected = 0
  ∧ (branchSwitchApply navigatedSession [sampleIssue "D"]).2 = some 4
  ∧ (branchSwitchApply navigatedSession [sampleIssue "D"]).1.codePane = .loading := by
  have h := branch_switch_replaces_list_resets_selection navigatedSession "proj" "develop"
    [sampleIssue "D"]
  have h4 := h.2.2.2.1 (by decide) (by decide)
  exact ⟨by decide, h.2.1, h.2.2.1, h4.1, h4.2⟩

/-- A fallback response whose `sources` array is empty. -/
def fallbackEmptyEnv : SourceEnv :=
  { raw := .err, showSources := .ok (some []) }

/-- C4 counterexample: with the primary endpoint failing and the fallback
returning an array of per-line records (here the empty array), the resolver
returns `null` — the joined content is the empty string, which the
`if (!content) return null` guard rejects — contradicting the claim that any
array of records yields non-null content. -/
theorem fallback_empty_sources_gives_null :
    fallbackEmptyEnv.showSources = .ok (some [])
  ∧ getIssueSource fallbackEmptyEnv (sampleIssue "A") 5 = none := by decide

/-- C4 as amended: when the primary endpoint fails and the fallback returns a
`sources` array whose `code` fields joined by newlines form a non-empty
string, the resolver yields non-null content equal to that join; when the
fallback also fails, or returns no array, the resolver returns null (the
catch-all, so it never throws). -/
theorem fallback_join_gives_content (env : SourceEnv) (issue : Issue)
    (hc : (jsTruthyStr issue.component).isSome)
    (hraw : env.raw = .err) :
    (∀ codes, env.showSources = .ok (some codes) →
        String.intercalate "\n" codes ≠ "" →
        contentOf (getIssueSource env issue 5) = some (String.intercalate "\n" codes)
        ∧ (getIssueSource env issue 5).isSome)
  ∧ (env.showSources = .err → getIssueSource env issue 5 = none)
  ∧ (env.showSources = .ok none → getIssueSource env issue 5 = none) := by
  rw [Option.isSome_iff_exists] at hc
  obtain ⟨comp, hcomp⟩ := hc
  refine ⟨?_, ?_, ?_⟩
  · intro codes hshow hne
    simp only [getIssueSource, hcomp, hraw, hshow, Option.isNone_some,
      Bool.false_eq_true, if_false, if_neg hne]
    cases hfl : focusLineOf issue <;> simp [contentOf]
  · intro hshow
    simp [getIssueSource, hcomp, hraw, hshow]
  · intro hshow
    simp [getIssueSource, hcomp, hraw, hshow]

/-- A fallback response with two per-line records. -/
def fallbackTwoLineEnv : SourceEnv :=
  { raw := .err, showSources := .ok (some ["const a = 1", "const b = 2"]) }

/-- Instance of the amended C4: primary fails, fallback records reassemble
into non-null content; both-fail returns null. -/
theorem fallback_join_gives_content_instance :
    contentOf (getIssueSource fallbackTwoLineEnv (sampleIssue "A") 5)
      = some "const a = 1\nconst b = 2"
  ∧ getIssueSource { raw := .err, showSources := .err } (sampleIssue "A") 5 = none := by
  have h1 := (fallback_join_gives_content fallbackTwoLineEnv (sampleIssue "A")
    (by decide) rfl).1 ["const a = 1", "const b = 2"] rfl (by decide)
  have h2 := (fallback_join_gives_content { raw := .err, showSources := .err }
    (sampleIssue "A") (by decide) rfl).2.1 rfl
  exact ⟨h1.1, h2⟩

/-- A three-line file served by the primary endpoint. -/
def threeLineEnv : SourceEnv :=
  { raw := .ok "a\nb\nc", showSources := .err }

/-- An issue whose focus line (10) lies beyond the three-line file. -/
def beyondEofIssue : Issue :=
  { sampleIssue "X" with line := some 10 }

/-- C5 counterexample: a focus line greater than the file's line count is not
clamped to line 1 — on a three-line file an issue at line 10 keeps focus 10
(the window `[5, 3]` is empty, but the focus is never 1). -/
theorem focus_beyond_eof_not_clamped :
    focusOf (getIssueSource threeLineEnv beyondEofIssue 5) = some 10
  ∧ focusOf (getIssueSource threeLineEnv beyondEofIssue 5) ≠ some 1 := by decide

/-- C5 as amended: with retrieved content the resolver never fails on an
out-of-range focus value; a negative focus clamps to line 1; a positive focus
is kept unchanged (in particular one greater than the line count is not
clamped); a focus of 0 counts as absent (full content, null snippet window);
and a focus beyond the line count by more than the radius yields an empty
snippet. -/
theorem focus_clamping_behavior (env : SourceEnv) (issue : Issue) (content : String)
    (hc : (jsTruthyStr issue.component).isSome)
    (hraw : env.raw = .ok content) (hne : content ≠ "") :
    (getIssueSource env issue 5).isSome
  ∧ (∀ F, focusLineOf issue = some F → F < 0 →
      focusOf (getIssueSource env issue 5) = some 1)
  ∧ (∀ F, focusLineOf issue = some F → 1 ≤ F →
      focusOf (getIssueSource env issue 5) = some F)
  ∧ (issue.line = some 0 → issue.textRange = none →
      getIssueSource env issue 5 = some (.fullOnly content))
  ∧ (∀ F, focusLineOf issue = some F → ((splitLines content).length : Int) + 5 < F →
      snippetOf (getIssueSource env issue 5) = some "") := by
  rw [Option.isSome_iff_exists] at hc
  obtain ⟨comp, hcomp⟩ := hc
  simp only [getIssueSource, hcomp, Option.isNone_some, Bool.false_eq_true, if_false,
    hraw, if_neg hne]
  refine ⟨?_, ?_, ?_, ?_, ?_⟩
  · cases hfl : focusLineOf issue <;> simp
  · intro F hfl hF
    rw [hfl]
    simp only [focusOf, Option.some.injEq]
    omega
  · intro F hfl hF
    rw [hfl]
    simp only [focusOf, Option.some.injEq]
    omega
  · intro hline htr
    have hfl : focusLineOf issue = none := by
      simp [focusLineOf, focusCandidate, jsTruthyInt, hline, htr]
    rw [hfl]
  · intro F hfl hF
    rw [hfl]
    have hidx : max 1 F = F := by omega
    have hstart : max 1 (F - 5) = F - 5 := by omega
    have hstop : min ((splitLines content).length : Int) (F + 5)
        = ((splitLines content).length : Int) := by omega
    simp only [snippetOf, hidx, hstart, hstop, Option.some.injEq]
    have hempty : windowLnos (F - 5) ((splitLines content).length : Int) = [] := by
      have : (((splitLines content).length : Int) + 1 - (F - 5)).toNat = 0 := by omega
      simp [windowLnos, this]
    rw [hempty]
    rfl

/-- An issue with a negative focus line. -/
def negativeLineIssue : Issue :=
  { sampleIssue "N" with line := some (-7) }

/-- Instance of the amended C5: a negative focus clamps to line 1; a focus
beyond the end of the file is kept and yields an empty snippet. -/
theorem focus_clamping_behavior_instance :
    focusOf (getIssueSource threeLineEnv negativeLineIssue 5) = some 1
  ∧ focusOf (getIssueSource threeLineEnv beyondEofIssue 5) = some 10
  ∧ snippetOf (getIssueSource threeLineEnv beyondEofIssue 5) = some ""
  ∧ (getIssueSource threeLineEnv beyondEofIssue 5).isSome := by
  have hn := focus_clamping_behavior threeLineEnv negativeLineIssue "a\nb\nc"
    (by decide) rfl (by decide)
  have hb := focus_clamping_behavior threeLineEnv beyondEofIssue "a\nb\nc"
    (by decide) rfl (by decide)
  exact ⟨hn.2.1 (-7) (by decide) (by decide),
    hb.2.2.1 10 (by decide) (by decide),
    hb.2.2.2.2 10 (by decide) (by decide),
    hb.1⟩

/-- C3: snippet windowing. For retrieved content of `L` lines and an in-range
focus line `F` (from `line` or `textRange.startLine`) with context radius 5,
the resolver returns a windowed snippet whose inclusive window is exactly
`[max 1 (F - 5), min L (F + 5)]`, rendered as one line per window line (with
1-based line numbers baked into `renderSnippetLine`); the window starts at 1
when `F = 1` and ends at `L` when `F = L`; the focus line lies in the window
and is the only one whose marker is `>`. -/
theorem snippet_window_exact (env : SourceEnv) (issue : Issue) (content : String) (F : Int)
    (hc : (jsTruthyStr issue.component).isSome)
    (hraw : env.raw = .ok content) (hne : content ≠ "")
    (hf : focusLineOf issue = some F)
    (h1 : 1 ≤ F) (hL : F ≤ ((splitLines content).length : Int)) :
    getIssueSource env issue 5 =
      some (.windowed content
        (String.intercalate "\n"
          ((windowLnos (max 1 (F - 5)) (min ((splitLines content).length : Int) (F + 5))).map
            (renderSnippetLine (splitLines content) F)))
        (max 1 (F - 5)) (min ((splitLines content).length : Int) (F + 5)) F)
  ∧ (F = 1 → max 1 (F - 5) = 1)
  ∧ (F = ((splitLines content).length : Int) →
      min ((splitLines content).length : Int) (F + 5)
        = ((splitLines content).length : Int))
  ∧ max 1 (F - 5) ≤ F ∧ F ≤ min ((splitLines content).length : Int) (F + 5)
  ∧ ((windowLnos (max 1 (F - 5)) (min ((splitLines content).length : Int) (F + 5))).map
        (renderSnippetLine (splitLines content) F)).length
      = (min ((splitLines content).length : Int) (F + 5) + 1 - max 1 (F - 5)).toNat
  ∧ (∀ ln : Int,
      ln ∈ windowLnos (max 1 (F - 5)) (min ((splitLines content).length : Int) (F + 5))
        ↔ (max 1 (F - 5) ≤ ln ∧ ln ≤ min ((splitLines content).length : Int) (F + 5)))
  ∧ F ∈ windowLnos (max 1 (F - 5)) (min ((splitLines content).length : Int) (F + 5))
  ∧ (∀ ln : Int, (focusMarker F ln = ">" ↔ ln = F) ∧ (focusMarker F ln = " " ↔ ln ≠ F)) := by
  rw [Option.isSome_iff_exists] at hc
  obtain ⟨comp, hcomp⟩ := hc
  have hidx : max 1 F = F := by omega
  refine ⟨?_, ?_, ?_, ?_, ?_, ?_, ?_, ?_, ?_⟩
  · simp only [getIssueSource, hcomp, Option.isNone_some, Bool.false_eq_true, if_false,
      hraw, if_neg hne, hf, hidx]
  · intro h
    omega
  · intro h
    omega
  · omega
  · omega
  · rw [List.length_map, windowLnos_length]
  · intro ln
    exact mem_windowLnos _ _ ln
  · rw [mem_windowLnos]
    omega
  · intro ln
    exact focusMarker_eq F ln

/-- A seven-line file served by the primary endpoint. -/
def sevenLineEnv : SourceEnv :=
  { raw := .ok "l1\nl2\nl3\nl4\nl5\nl6\nl7", showSources := .err }

/-- An issue focused on line 4 of the seven-line file. -/
def midFileIssue : Issue :=
  { sampleIssue "M" with line := some 4 }

/-- Instance of C3 on a seven-line file with focus 4: the window is `[1, 7]`
and the rendered snippet is the line-by-line mapping over it. -/
theorem snippet_window_exact_instance :
    getIssueSource sevenLineEnv midFileIssue 5 =
      some (.windowed "l1\nl2\nl3\nl4\nl5\nl6\nl7"
        (String.intercalate "\n"
          ((windowLnos (max 1 ((4 : Int) - 5))
              (min ((splitLines "l1\nl2\nl3\nl4\nl5\nl6\nl7").length : Int) ((4 : Int) + 5))).map
            (renderSnippetLine (splitLines "l1\nl2\nl3\nl4\nl5\nl6\nl7") 4)))
        (max 1 ((4 : Int) - 5))
        (min ((splitLines "l1\nl2\nl3\nl4\nl5\nl6\nl7").length : Int) ((4 : Int) + 5)) 4)
  ∧ (4 : Int) ∈ windowLnos (max 1 ((4 : Int) - 5))
      (min ((splitLines "l1\nl2\nl3\nl4\nl5\nl6\nl7").length : Int) ((4 : Int) + 5)) := by
  have h := snippet_window_exact sevenLineEnv midFileIssue "l1\nl2\nl3\nl4\nl5\nl6\nl7" 4
    (by decide) rfl (by decide) (by decide) (by decide) (by decide)
  exact ⟨h.1, h.2.2.2.2.2.2.2.1⟩

end SonarDash
